import Mathlib

/-!
Verification development for the transcription core in
src/src-tauri/src/main.rs.

Modelling conventions (shallow embedding):
* Rust f32 values are modelled by the inductive type F32: a finite value
  carries an exact rational, and NaN / +Infinity / -Infinity are explicit
  constructors.  Arithmetic on finite values is exact rational arithmetic
  (rounding of real f32 arithmetic is not modelled); the propagation rules
  for the non-finite constructors follow IEEE 754.
* The hound WAV container parser is a library call; the embedding starts
  from its output: a WavSpec record plus the decoded sample sequence
  (with Option marking per-sample decode failures, which the code maps to
  0 via unwrap_or).
* A Rust function that can panic is modelled with the RResult type, whose
  panicked constructor marks an index-out-of-bounds abort.
* File-system facts (which files exist in a model directory, whether the
  sidecar binary exists) are passed in explicitly as data.
-/

namespace EliteWhisper

/-- Shallow model of a Rust f32 value: exact rational if finite, with
explicit NaN and infinity constructors. -/
inductive F32 : Type
  | fin (v : ℚ)
  | nan
  | inf
  | neginf
  deriving DecidableEq, Repr

/-- Model of Rust f32::is_finite. -/
def F32.isFinite : F32 → Bool
  | .fin _ => true
  | _ => false

/-- IEEE-style addition on the f32 model (finite addition is exact;
overflow of finite sums to infinity is not modelled). -/
def F32.add : F32 → F32 → F32
  | .nan, _ => .nan
  | _, .nan => .nan
  | .inf, .neginf => .nan
  | .neginf, .inf => .nan
  | .inf, _ => .inf
  | _, .inf => .inf
  | .neginf, _ => .neginf
  | _, .neginf => .neginf
  | .fin a, .fin b => .fin (a + b)

/-- Division by 2.0 on the f32 model. -/
def F32.div2 : F32 → F32
  | .fin a => .fin (a / 2)
  | .nan => .nan
  | .inf => .inf
  | .neginf => .neginf

/-- Outcome of a Rust call that can return, error out, or panic. -/
inductive RResult (α : Type) : Type
  | ok (a : α)
  | err (e : String)
  | panicked
  deriving DecidableEq, Repr

/-- The WAV header fields read_wav_from_bytes consults, as reported by the
hound reader (reader.spec()). -/
structure WavSpec : Type where
  sampleRate : Nat
  channels : Nat
  bitsPerSample : Nat
  deriving DecidableEq, Repr

/-- The decoded sample stream of the WAV data chunk.  The constructor
records the sample_format of the container; each element is none when the
per-sample decode failed (the code turns that into 0 via unwrap_or). -/
inductive SampleData : Type
  | intData (samples : List (Option ℤ))
  | floatData (samples : List (Option F32))
  deriving DecidableEq, Repr

/-- Sample conversion step of read_wav_from_bytes (main.rs lines 96-104):
integer PCM is divided by 2^(bits_per_sample-1); float PCM passes through;
failed samples default to 0 / 0.0. -/
def decodeSamples (spec : WavSpec) : SampleData → List F32
  | .intData data =>
    let maxVal : ℚ := 2 ^ (spec.bitsPerSample - 1)
    data.map (fun s => .fin (((s.getD 0 : ℤ) : ℚ) / maxVal))
  | .floatData data => data.map (fun s => s.getD (.fin 0))

/-- Stereo downmix of read_wav_from_bytes (main.rs lines 106-113):
samples.chunks(2).map(|chunk| (chunk[0] + chunk[1]) / 2.0).
Rust slice::chunks yields a final chunk of length 1 when the input length
is odd, and chunk[1] on that chunk panics; none models that panic. -/
def mixStereo : List F32 → Option (List F32)
  | [] => some []
  | [_] => none
  | a :: b :: rest => (mixStereo rest).map (fun m => (a.add b).div2 :: m)

/-- Embedding of read_wav_from_bytes (main.rs lines 80-119), starting from
the parsed container: rejects sample rates other than 16000, converts
samples, then downmixes by channel count. -/
def read_wav_from_bytes (spec : WavSpec) (data : SampleData) : RResult (List F32) :=
  if spec.sampleRate ≠ 16000 then
    .err ("WAV file must be 16kHz, found " ++ toString spec.sampleRate)
  else
    let samples := decodeSamples spec data
    if spec.channels = 2 then
      match mixStereo samples with
      | some mono => .ok mono
      | none => .panicked
    else if spec.channels = 1 then
      .ok samples
    else
      .err ("Unsupported channel count: " ++ toString spec.channels)

/-- Per-sample sanitisation in the sidecar branch of cmd_transcribe
(main.rs lines 211-214): non-finite samples become 0.0. -/
def sanitizeSample (s : F32) : F32 :=
  if s.isFinite then s else .fin 0

/-- The safe_samples map of cmd_transcribe (main.rs lines 211-214). -/
def sanitizeSamples (l : List F32) : List F32 :=
  l.map sanitizeSample

/-! Model descriptor resolution (cmd_load_model, main.rs lines 598-713). -/

/-- SherpaModelType (main.rs lines 7-12). -/
inductive SherpaModelType : Type
  | Transducer
  | Whisper
  | SenseVoice
  deriving DecidableEq, Repr

/-- SherpaConfig (main.rs lines 14-23). -/
structure SherpaConfig : Type where
  model_type : SherpaModelType
  encoder : Option String
  decoder : Option String
  joiner : Option String
  sense_voice_model : Option String
  tokens : String
  model_name : String
  deriving DecidableEq, Repr

/-- A model directory as cmd_load_model observes it: its path, its base
name (path.file_name), and the names of the files it contains. -/
structure DirModel : Type where
  dirPath : String
  baseName : String
  files : List String
  deriving DecidableEq, Repr

/-- File-existence test inside a model directory (path.join(n).exists()). -/
def DirModel.hasFile (d : DirModel) (n : String) : Bool :=
  d.files.contains n

/-- Path of a file inside the model directory (path.join(n)). -/
def DirModel.join (d : DirModel) (n : String) : String :=
  d.dirPath ++ "/" ++ n

/-- Directory branch of cmd_load_model (main.rs lines 608-695): requires
tokens.txt; model.int8.onnx selects SenseVoice; otherwise encoder and
decoder are resolved preferring the int8 variant, a joiner is optional,
and a missing encoder or decoder is an error naming both naming schemes.
The joiner decides Transducer versus Whisper. -/
def resolveSherpa (d : DirModel) : Except String SherpaConfig :=
  if ¬ d.hasFile "tokens.txt" then
    .error "Missing tokens.txt"
  else
    let tokens_str := d.join "tokens.txt"
    if d.hasFile "model.int8.onnx" then
      .ok { model_type := .SenseVoice
            tokens := tokens_str
            sense_voice_model := some (d.join "model.int8.onnx")
            encoder := none
            decoder := none
            joiner := none
            model_name := d.baseName }
    else
      let encoderName := if d.hasFile "encoder.int8.onnx" then "encoder.int8.onnx" else "encoder.onnx"
      let decoderName := if d.hasFile "decoder.int8.onnx" then "decoder.int8.onnx" else "decoder.onnx"
      let joinerName : Option String :=
        if d.hasFile "joiner.int8.onnx" then some "joiner.int8.onnx"
        else if d.hasFile "joiner.onnx" then some "joiner.onnx"
        else none
      if ¬ (d.hasFile encoderName ∧ d.hasFile decoderName) then
        .error "Missing model files: need either 'model.int8.onnx' (SenseVoice) or 'encoder/decoder' (Transducer/Whisper)"
      else
        .ok { model_type := if joinerName.isSome then .Transducer else .Whisper
              tokens := tokens_str
              encoder := some (d.join encoderName)
              decoder := some (d.join decoderName)
              joiner := joinerName.map d.join
              sense_voice_model := none
              model_name := d.baseName }

/-- TranscriptionEngine (main.rs lines 32-36); the embedded WhisperContext
handle is modelled as an abstract numeric id. -/
inductive TranscriptionEngine : Type
  | whisperEngine (ctx : Nat)
  | sherpa (config : SherpaConfig)
  | noEngine
  deriving DecidableEq, Repr

/-- AppState (main.rs lines 38-41): the engine and the current model name,
both behind one lock each; the lock itself is not modelled, only the
guarded contents. -/
structure AppStateM : Type where
  engine : TranscriptionEngine
  current_model_name : String
  deriving DecidableEq, Repr

/-- The path argument of cmd_load_model: either a directory (with its
observed contents) or a single file.  For a file, the result of
WhisperContext::new_with_params is passed in as data (ok carries the
abstract context handle). -/
inductive PathModel : Type
  | dir (d : DirModel)
  | file (baseName : String) (instResult : Except String Nat)

/-- Embedding of cmd_load_model (main.rs lines 598-713) as a state
transition: given the path and the prior state, it returns the new state
and the command result.  Every error branch returns before the guards are
assigned, so the prior state is kept on failure. -/
def cmd_load_model (p : PathModel) (st : AppStateM) : AppStateM × Except String String :=
  match p with
  | .dir d =>
    match resolveSherpa d with
    | .error e => (st, .error e)
    | .ok cfg =>
      ({ engine := .sherpa cfg, current_model_name := cfg.model_name },
       .ok (if cfg.model_type = .SenseVoice then "SenseVoice Loaded" else "Sherpa Model Loaded"))
  | .file baseName instResult =>
    match instResult with
    | .error e => (st, .error ("Failed to load Whisper model: " ++ e))
    | .ok ctx =>
      ({ engine := .whisperEngine ctx, current_model_name := baseName },
       .ok "Whisper Model Loaded")

/-- Embedding of cmd_load_default_model (main.rs lines 52-78): the
embedded model is instantiated before the state lock is taken; on failure
the function returns the error with the state untouched. -/
def cmd_load_default_model (instResult : Except String Nat) (st : AppStateM) :
    AppStateM × Except String String :=
  match instResult with
  | .error e => (st, .error e)
  | .ok ctx =>
    ({ engine := .whisperEngine ctx, current_model_name := "Whisper Base (Local)" },
     .ok "Whisper Base (Local)")

/-! Sidecar adapter: scratch WAV encoding, binary resolution, argument
building and result extraction (cmd_transcribe, main.rs lines 209-357). -/

/-- Truncation toward zero of a rational, the rounding used by a Rust
float-to-integer as-cast; numerator and denominator are coprime, so
truncating integer division of them computes it. -/
def truncQ (q : ℚ) : ℤ :=
  q.num.tdiv q.den

/-- Per-sample encoding of write_temp_wav (main.rs lines 141-147):
(sample * 32767.0) as i16.  A Rust float-to-int as-cast truncates toward
zero, saturates at the integer bounds, and maps NaN to 0. -/
def f32AsI16 : F32 → ℤ
  | .fin v => max (-32768) (min 32767 (truncQ (v * 32767)))
  | .nan => 0
  | .inf => 32767
  | .neginf => -32768

/-- Sample stream written by write_temp_wav (main.rs lines 122-153): mono,
16000 Hz, 16-bit signed integer, one encoded sample per input sample. -/
def write_temp_wav (samples : List F32) : List ℤ :=
  samples.map f32AsI16

/-- Decoding of one 16-bit integer sample by read_wav_from_bytes
(main.rs lines 97-101 with bits_per_sample = 16): s / 2^15. -/
def decodeI16 (i : ℤ) : F32 :=
  .fin ((i : ℚ) / 32768)

/-- Scratch-WAV round trip of one sample: encode as in write_temp_wav,
decode as read_wav_from_bytes would. -/
def roundTrip (s : F32) : F32 :=
  decodeI16 (f32AsI16 s)

/-- Environment of the sidecar binary search (main.rs lines 223-245):
whether the binary exists at the packaged-resource location and at the
development-tree location, and whether this is a debug build
(the development fallback is compiled only under debug_assertions). -/
structure SidecarEnv : Type where
  resourceDir : String
  currentDir : String
  resourceBinExists : Bool
  devBinExists : Bool
  debugAssertions : Bool
  deriving DecidableEq, Repr

/-- File name of the sidecar binary (main.rs lines 229-231). -/
def sidecarBinName : String :=
  "sherpa-onnx-x86_64-pc-windows-msvc.exe"

/-- Binary resolution of cmd_transcribe (main.rs lines 229-245): the
packaged-resource path is taken first; if it does not exist and this is a
debug build, the development path replaces it when that one exists;
otherwise the (non-existing) resource path is kept.  Returns the chosen
path and whether a binary exists there. -/
def resolveSidecarPath (env : SidecarEnv) : String × Bool :=
  let resPath := env.resourceDir ++ "/bin/" ++ sidecarBinName
  if env.resourceBinExists then
    (resPath, true)
  else if env.debugAssertions ∧ env.devBinExists then
    (env.currentDir ++ "/bin/" ++ sidecarBinName, true)
  else
    (resPath, false)

/-- Spawn step of cmd_transcribe (main.rs lines 298-302): running the
resolved path fails with the spawn error when no binary exists there; the
operating-system message of that failure is passed in as osErr.  No
explicit existence check guards the spawn. -/
def runSidecarBinary (env : SidecarEnv) (osErr : String) : Except String Unit :=
  let resolved := resolveSidecarPath env
  if resolved.2 then .ok ()
  else .error ("Failed to execute Sherpa process: " ++ osErr)

/-- Argument list built for the sidecar (main.rs lines 249-293).  The
kind-specific branches use if-let and emit nothing when a required field
is absent.  hotwordsExists and hotwordsPath describe the hotwords file
consulted by the Transducer branch. -/
def buildSherpaArgs (config : SherpaConfig) (hotwordsExists : Bool)
    (hotwordsPath : String) (tempWavStr : String) : List String :=
  let base := ["--tokens=" ++ config.tokens]
  let kindArgs : List String :=
    match config.model_type with
    | .SenseVoice =>
      match config.sense_voice_model with
      | some model => ["--sense-voice-model=" ++ model, "--model-type=sense-voice"]
      | none => []
    | .Transducer =>
      match config.encoder, config.decoder, config.joiner with
      | some enc, some dec, some join =>
        ["--encoder=" ++ enc, "--decoder=" ++ dec, "--joiner=" ++ join] ++
        (if hotwordsExists then
          ["--hotwords-file=" ++ hotwordsPath, "--hotwords-score=2.0",
           "--decoding-method=modified_beam_search"]
        else
          ["--decoding-method=greedy_search"])
      | _, _, _ => []
    | .Whisper =>
      match config.encoder, config.decoder with
      | some enc, some dec =>
        ["--whisper-encoder=" ++ enc, "--whisper-decoder=" ++ dec,
         "--whisper-language=en", "--whisper-task=transcribe", "--model-type=whisper"]
      | _, _ => []
  base ++ kindArgs ++ ["--num-threads=4", tempWavStr]

/-- Whitespace predicate used by the trim model (ASCII subset of the
Unicode whitespace Rust str::trim removes). -/
def isWsChar (c : Char) : Bool :=
  c = ' ' ∨ c = '\t' ∨ c = '\n' ∨ c = '\r'

/-- Model of Rust str::trim over the character list. -/
def rustTrimList (cs : List Char) : List Char :=
  ((cs.dropWhile isWsChar).reverse.dropWhile isWsChar).reverse

/-- Model of Rust str::trim. -/
def rustTrim (s : String) : String :=
  String.mk (rustTrimList s.toList)

/-- List.isPrefixOf as a Bool test, spelled out. -/
def listPrefix : List Char → List Char → Bool
  | [], _ => true
  | _ :: _, [] => false
  | p :: ps, c :: cs => p = c ∧ listPrefix ps cs

/-- Worker of the str::replace model: scans left to right, replaces
non-overlapping occurrences of pat; fuel bounds the recursion and is set
to the list length (each step consumes at least one character). -/
def replaceFuel (pat rep : List Char) : Nat → List Char → List Char
  | 0, cs => cs
  | _ + 1, [] => []
  | fuel + 1, c :: cs =>
    if listPrefix pat (c :: cs) then
      rep ++ replaceFuel pat rep fuel ((c :: cs).drop pat.length)
    else
      c :: replaceFuel pat rep fuel cs

/-- Model of Rust str::replace (all non-overlapping occurrences, left to
right).  An empty pattern leaves the string unchanged; every pattern used
by the code is non-empty. -/
def rustReplace (s pat rep : String) : String :=
  if pat.toList = [] then s
  else String.mk (replaceFuel pat.toList rep.toList s.toList.length s.toList)

/-- The fixed hallucination-marker list of the embedded branch of
cmd_transcribe (main.rs lines 197-203). -/
def whisperFilters : List String :=
  ["[BLANK_AUDIO]", "[silence]", "(music)", "[MUSIC]", "(silence)"]

/-- Post-processing of the embedded branch of cmd_transcribe (main.rs
lines 195-207): trim, remove every occurrence of each marker in order,
trim again. -/
def filterHallucinations (text : String) : String :=
  rustTrim (whisperFilters.foldl (fun acc f => rustReplace acc f "") (rustTrim text))

/-- Strips one trailing carriage return, as Rust str::lines does per
line. -/
def stripCR (l : List Char) : List Char :=
  if l.getLast? = some '\r' then l.dropLast else l

/-- Worker of the str::lines model: splits on newline characters; a
trailing newline produces no final empty line. -/
def linesAux : List Char → List Char → List (List Char)
  | [], acc => if acc.isEmpty then [] else [stripCR acc.reverse]
  | c :: rest, acc =>
    if c = '\n' then stripCR acc.reverse :: linesAux rest []
    else linesAux rest (c :: acc)

/-- Model of Rust str::lines. -/
def rustLines (s : String) : List String :=
  (linesAux s.toList []).map String.mk

/-- One line of sidecar output, reduced by serde_json::from_str followed
by get("text").and_then(as_str): lineText stands for that library
composite, yielding the text field when the line parses as a JSON record
with a string text field (main.rs lines 336-345).  The scan returns the
first line for which that succeeds. -/
def extract_text_from_json (lineText : String → Option String) (output : String) :
    Option String :=
  (rustLines output).findSome? lineText

/-- Debug formatting of an Option exit code, as the Rust format string
renders output.status.code(). -/
def formatOptCode : Option ℤ → String
  | some i => "Some(" ++ toString i ++ ")"
  | none => "None"

/-- Result handling of the sidecar branch after the process ran (main.rs
lines 325-356): a non-zero exit is fatal and carries the exit code and
both streams; otherwise stderr is scanned first, then stdout, and when
neither yields a record the trimmed stdout is returned. -/
def sherpaResult (lineText : String → Option String) (success : Bool)
    (code : Option ℤ) (stderr stdout : String) : Except String String :=
  if ¬ success then
    .error ("Sherpa exit code: " ++ formatOptCode code ++ ". Stderr: " ++ stderr ++
      ". Stdout: " ++ stdout)
  else
    match extract_text_from_json lineText stderr with
    | some t => .ok t
    | none =>
      match extract_text_from_json lineText stdout with
      | some t => .ok t
      | none => .ok (rustTrim stdout)

/-- Success tester for the Except results of the embedding. -/
def isOkE {α : Type} : Except String α → Bool
  | .ok _ => true
  | .error _ => false

/-- Modelled from the spec: the stereo downmix the specification
describes for the Audio Normalizer — average corresponding left/right
sample pairs into one mono sample per frame, pairing strict, an odd
trailing sample dropped.  Reference definition for comparison with
mixStereo, which is translated from the code. -/
def specAvgPairs : List F32 → List F32
  | a :: b :: rest => (a.add b).div2 :: specAvgPairs rest
  | _ => []

/-- The field-presence invariant each SherpaModelType requires of a
stored SherpaConfig: SenseVoice carries its combined model path,
Transducer carries encoder, decoder and joiner, Whisper carries encoder
and decoder with no joiner. -/
def configInv (c : SherpaConfig) : Bool :=
  match c.model_type with
  | .SenseVoice => c.sense_voice_model.isSome
  | .Transducer => c.encoder.isSome && c.decoder.isSome && c.joiner.isSome
  | .Whisper => c.encoder.isSome && c.decoder.isSome && c.joiner.isNone

/-- The model type a load result resolved to, when it succeeded. -/
def resolvedType (r : Except String SherpaConfig) : Option SherpaModelType :=
  match r with
  | .ok c => some c.model_type
  | .error _ => none

/-- Pointwise correctness of the sanitisation step: a finite sample is
kept, a non-finite one is replaced by 0.0. -/
def sanitizeOk (p : F32 × F32) : Bool :=
  if p.1.isFinite then decide (p.2 = p.1) else decide (p.2 = F32.fin 0)

/-- A concrete Transducer model directory, used as a witness input. -/
def transducerDirExample : DirModel :=
  ⟨"/m/t", "t", ["tokens.txt", "encoder.onnx", "decoder.onnx", "joiner.onnx"]⟩

/-- The configuration resolveSherpa produces for transducerDirExample. -/
def transducerCfgExample : SherpaConfig :=
  { model_type := .Transducer, encoder := some "/m/t/encoder.onnx",
    decoder := some "/m/t/decoder.onnx", joiner := some "/m/t/joiner.onnx",
    sense_voice_model := none, tokens := "/m/t/tokens.txt", model_name := "t" }

/-! Helper lemmas. -/

theorem truncQ_of_nonneg (q : ℚ) (h : 0 ≤ q) : truncQ q = ⌊q⌋ := by
  rw [truncQ, Rat.floor_def]
  exact Int.tdiv_eq_ediv (Rat.num_nonneg.mpr h) (Int.ofNat_nonneg _)

theorem truncQ_neg (q : ℚ) : truncQ (-q) = -truncQ q := by
  rw [truncQ, truncQ, Rat.neg_num, Rat.neg_den, Int.neg_tdiv]

theorem truncQ_of_nonpos (q : ℚ) (h : q ≤ 0) : truncQ q = ⌈q⌉ := by
  have h1 : truncQ (-q) = ⌊-q⌋ := truncQ_of_nonneg (-q) (by linarith)
  rw [truncQ_neg, Int.floor_neg] at h1
  omega

theorem abs_truncQ_sub_lt_one (q : ℚ) : |(truncQ q : ℚ) - q| < 1 := by
  rcases le_or_lt 0 q with h | h
  · rw [truncQ_of_nonneg q h]
    have h1 := Int.floor_le q
    have h2 := Int.sub_one_lt_floor q
    rw [abs_lt]
    constructor <;> linarith
  · rw [truncQ_of_nonpos q (le_of_lt h)]
    have h1 := Int.le_ceil q
    have h2 := Int.ceil_lt_add_one q
    rw [abs_lt]
    constructor <;> linarith

theorem truncQ_le_of_le (q : ℚ) (B : ℤ) (h : q ≤ (B : ℚ)) : truncQ q ≤ B := by
  rcases le_or_lt 0 q with h0 | h0
  · rw [truncQ_of_nonneg q h0]
    have := Int.floor_le_floor h
    rwa [Int.floor_intCast] at this
  · rw [truncQ_of_nonpos q (le_of_lt h0)]
    have := Int.ceil_le_ceil h
    rwa [Int.ceil_intCast] at this

theorem le_truncQ_of_le (q : ℚ) (B : ℤ) (h : (B : ℚ) ≤ q) : B ≤ truncQ q := by
  have h1 : truncQ (-q) ≤ -B := by
    have := truncQ_le_of_le (-q) (-B) (by push_cast; linarith)
    simpa using this
  rw [truncQ_neg] at h1
  omega

theorem mixStereo_even : ∀ (l : List F32), l.length % 2 = 0 →
    mixStereo l = some (specAvgPairs l)
  | [], _ => rfl
  | [_], h => by simp at h
  | a :: b :: rest, h => by
    have h2 : rest.length % 2 = 0 := by
      simp only [List.length_cons] at h
      omega
    simp [mixStereo, specAvgPairs, mixStereo_even rest h2]

theorem mixStereo_odd : ∀ (l : List F32), l.length % 2 = 1 → mixStereo l = none
  | [], h => by simp at h
  | [_], _ => rfl
  | _ :: _ :: rest, h => by
    have h2 : rest.length % 2 = 1 := by
      simp only [List.length_cons] at h
      omega
    simp [mixStereo, mixStereo_odd rest h2]

theorem sanitize_all_finite (l : List F32) :
    (sanitizeSamples l).all F32.isFinite = true := by
  induction l with
  | nil => rfl
  | cons s t ih =>
    cases s <;> simpa [sanitizeSamples, sanitizeSample, F32.isFinite] using ih

theorem sanitize_pointwise (l : List F32) :
    (l.zip (sanitizeSamples l)).all sanitizeOk = true := by
  induction l with
  | nil => rfl
  | cons s t ih =>
    cases s <;> simpa [sanitizeSamples, sanitizeSample, sanitizeOk, F32.isFinite] using ih

/-! Claim theorems. -/

/-- Claim C1, counterexample: the normalizer itself does not clamp
non-finite samples.  A mono float WAV whose decoded sample is NaN is
accepted by read_wav_from_bytes and the NaN leaves the normalizer in the
returned buffer, contradicting the claim that non-finite values are
clamped to 0.0 before any value leaves the normalizer. -/
theorem c1_normalizer_lets_nonfinite_escape :
    read_wav_from_bytes ⟨16000, 1, 32⟩ (.floatData [some .nan]) = .ok [.nan] ∧
    F32.nan.isFinite = false :=
  ⟨rfl, rfl⟩

/-- Claim C1, amended: clamping of non-finite samples to 0.0 happens only
on the sidecar path, where cmd_transcribe maps the normalizer output
through the safe_samples sanitisation before writing the scratch WAV:
every sample of the sanitised buffer is finite, and each non-finite
sample is replaced by 0.0 while finite samples are kept.  The embedded
path receives the normalizer output without this sanitisation. -/
theorem c1_sidecar_sanitized_buffer_finite (spec : WavSpec) (data : SampleData)
    (out : List F32) (h : read_wav_from_bytes spec data = .ok out) :
    (sanitizeSamples out).all F32.isFinite = true ∧
    (out.zip (sanitizeSamples out)).all sanitizeOk = true :=
  ⟨sanitize_all_finite out, sanitize_pointwise out⟩

/-- Claim C1, witness for the amended theorem at the NaN input. -/
theorem c1_sidecar_sanitized_buffer_finite_witness :
    (sanitizeSamples [F32.nan]).all F32.isFinite = true ∧
    ([F32.nan].zip (sanitizeSamples [F32.nan])).all sanitizeOk = true :=
  c1_sidecar_sanitized_buffer_finite ⟨16000, 1, 32⟩ (.floatData [some .nan]) [.nan] rfl

/-- Claim C2, counterexample: on a 2-channel 16 kHz input whose decoded
sample sequence has odd length, the stereo downmix indexes past the end
of the final one-element chunk and panics instead of dropping the odd
trailing sample and returning normally. -/
theorem c2_odd_stereo_panics :
    read_wav_from_bytes ⟨16000, 2, 32⟩
      (.floatData [some (.fin 1), some (.fin 0), some (.fin 1)]) = .panicked :=
  rfl

/-- Claim C2, amended: for 2-channel 16 kHz input with an even decoded
sample count, read_wav_from_bytes returns the pairwise left/right
averages (specAvgPairs); with an odd decoded sample count it panics
(chunk index out of bounds) rather than dropping the trailing sample;
any channel count other than 1 or 2 fails with the unsupported-channel
error. -/
theorem c2_stereo_mix (spec : WavSpec) (data : SampleData)
    (h16 : spec.sampleRate = 16000) :
    (spec.channels = 2 → (decodeSamples spec data).length % 2 = 0 →
      read_wav_from_bytes spec data = .ok (specAvgPairs (decodeSamples spec data))) ∧
    (spec.channels = 2 → (decodeSamples spec data).length % 2 = 1 →
      read_wav_from_bytes spec data = .panicked) ∧
    (spec.channels ≠ 1 → spec.channels ≠ 2 →
      read_wav_from_bytes spec data =
        .err ("Unsupported channel count: " ++ toString spec.channels)) := by
  refine ⟨?_, ?_, ?_⟩
  · intro h2 heven
    simp [read_wav_from_bytes, h16, h2, mixStereo_even _ heven]
  · intro h2 hodd
    simp [read_wav_from_bytes, h16, h2, mixStereo_odd _ hodd]
  · intro h1 h2
    simp [read_wav_from_bytes, h16, h1, h2]

/-- Claim C2, witness for the amended theorem: a concrete even-length
stereo input yields the pairwise averages. -/
theorem c2_stereo_mix_witness :
    read_wav_from_bytes ⟨16000, 2, 32⟩
        (.floatData [some (.fin 1), some (.fin 3), some (.fin 5), some (.fin 7)]) =
      .ok (specAvgPairs (decodeSamples ⟨16000, 2, 32⟩
        (.floatData [some (.fin 1), some (.fin 3), some (.fin 5), some (.fin 7)]))) :=
  (c2_stereo_mix ⟨16000, 2, 32⟩
    (.floatData [some (.fin 1), some (.fin 3), some (.fin 5), some (.fin 7)]) rfl).1
    rfl (by decide)

/-- Claim C5: when embedded-model instantiation fails during a load, both
load commands return the instantiation error and leave the stored engine
state and model label unchanged. -/
theorem c5_failed_load_preserves_state (st : AppStateM) (n e : String) :
    cmd_load_model (.file n (.error e)) st =
      (st, .error ("Failed to load Whisper model: " ++ e)) ∧
    cmd_load_default_model (.error e) st = (st, .error e) :=
  ⟨rfl, rfl⟩

/-- Claim C3, counterexample: when the binary exists at neither the
packaged-resource location nor the development-tree location, the call
does not fail with an explicit not-found error; the resolved path is the
(non-existing) resource path and the failure is only the later
process-spawn error. -/
theorem c3_no_explicit_not_found_error :
    resolveSidecarPath ⟨"/res", "/cur", false, false, true⟩ =
      ("/res" ++ "/bin/" ++ sidecarBinName, false) ∧
    runSidecarBinary ⟨"/res", "/cur", false, false, true⟩ "os error 2" =
      .error ("Failed to execute Sherpa process: " ++ "os error 2") :=
  ⟨rfl, rfl⟩

/-- Claim C3, amended: the sidecar binary is resolved by checking the
packaged-resource location first and, in debug builds only, falling back
to the development-tree location; when neither contains the binary no
explicit not-found error is raised and the call fails only at process
spawn with the spawn error. -/
theorem c3_sidecar_binary_resolution (env : SidecarEnv) (osErr : String) :
    (env.resourceBinExists = true →
      resolveSidecarPath env = (env.resourceDir ++ "/bin/" ++ sidecarBinName, true)) ∧
    (env.resourceBinExists = false → env.debugAssertions = true →
      env.devBinExists = true →
      resolveSidecarPath env = (env.currentDir ++ "/bin/" ++ sidecarBinName, true)) ∧
    (env.resourceBinExists = false → (env.debugAssertions && env.devBinExists) = false →
      runSidecarBinary env osErr =
        .error ("Failed to execute Sherpa process: " ++ osErr)) := by
  refine ⟨?_, ?_, ?_⟩
  · intro hres
    simp [resolveSidecarPath, hres]
  · intro hres hdbg hdev
    simp [resolveSidecarPath, hres, hdbg, hdev]
  · intro hres hnd
    rw [Bool.and_eq_false_iff] at hnd
    rcases hnd with h | h <;>
      simp [runSidecarBinary, resolveSidecarPath, hres, h]

/-- Claim C3, witness: the development fallback is taken in a debug build
when only the dev binary exists, and a release build with no resource
binary fails at spawn. -/
theorem c3_sidecar_binary_resolution_witness :
    resolveSidecarPath ⟨"/r", "/c", false, true, true⟩ =
      ("/c" ++ "/bin/" ++ sidecarBinName, true) ∧
    runSidecarBinary ⟨"/r", "/c", false, true, false⟩ "os error 2" =
      .error ("Failed to execute Sherpa process: " ++ "os error 2") :=
  ⟨(c3_sidecar_binary_resolution ⟨"/r", "/c", false, true, true⟩ "x").2.1 rfl rfl rfl,
   (c3_sidecar_binary_resolution ⟨"/r", "/c", false, true, false⟩ "os error 2").2.2
     rfl rfl⟩

/-- Claim C6: after a successful sidecar exit, stderr lines are scanned
first and stdout lines second for a record with a text field, the first
hit is returned, and when neither stream yields one the trimmed stdout is
returned, so extraction never fails; only a non-zero exit is fatal, and
that error carries the exit code and both captured streams. -/
theorem c6_sidecar_result_extraction (lt : String → Option String) (code : Option ℤ)
    (stderr stdout : String) :
    (∀ t, extract_text_from_json lt stderr = some t →
      sherpaResult lt true code stderr stdout = .ok t) ∧
    (∀ t, extract_text_from_json lt stderr = none →
      extract_text_from_json lt stdout = some t →
      sherpaResult lt true code stderr stdout = .ok t) ∧
    (extract_text_from_json lt stderr = none →
      extract_text_from_json lt stdout = none →
      sherpaResult lt true code stderr stdout = .ok (rustTrim stdout)) ∧
    isOkE (sherpaResult lt true code stderr stdout) = true ∧
    sherpaResult lt false code stderr stdout =
      .error ("Sherpa exit code: " ++ formatOptCode code ++ ". Stderr: " ++ stderr ++
        ". Stdout: " ++ stdout) := by
  refine ⟨?_, ?_, ?_, ?_, ?_⟩
  · intro t ht
    simp [sherpaResult, ht]
  · intro t he ht
    simp [sherpaResult, he, ht]
  · intro he ho
    simp [sherpaResult, he, ho]
  · rcases he : extract_text_from_json lt stderr with _ | t
    · rcases ho : extract_text_from_json lt stdout with _ | t
      · simp [sherpaResult, he, ho, isOkE]
      · simp [sherpaResult, he, ho, isOkE]
    · simp [sherpaResult, he, isOkE]
  · simp [sherpaResult]

/-- Claim C6, witness: a record on the second stderr line wins even when
stdout also carries one. -/
theorem c6_sidecar_result_extraction_witness :
    sherpaResult (fun l => if l = "REC" then some "x" else none) true (some 0)
      "junk\nREC" "REC" = .ok "x" :=
  (c6_sidecar_result_extraction (fun l => if l = "REC" then some "x" else none)
    (some 0) "junk\nREC" "REC").1 "x" (by decide)

/-- Claim C8: the embedded adapter post-processing trims, removes every
occurrence of each literal marker in the fixed case-sensitive set without
collapsing the surrounding whitespace, and trims again: the bracketed
blank-audio marker alone yields the empty string, a marker inside a
sentence leaves a double space, lowercase variants of an uppercase marker
are not removed, repeated markers are all removed, and interior
whitespace exposed by removal at the ends is trimmed. -/
theorem c8_hallucination_filter :
    filterHallucinations "[BLANK_AUDIO]" = "" ∧
    filterHallucinations "Hello [MUSIC] world" = "Hello  world" ∧
    filterHallucinations "  [BLANK_AUDIO]  " = "" ∧
    filterHallucinations " Hello [MUSIC] " = "Hello" ∧
    filterHallucinations "[blank_audio]" = "[blank_audio]" ∧
    filterHallucinations "[MUSIC][MUSIC](silence)[silence](music)" = "" := by
  decide

/-- Claim C4: model resolution in a directory requires tokens.txt,
selects SenseVoice when model.int8.onnx is present, otherwise resolves
encoder and decoder (int8 variant preferred), classifies the result as
Transducer exactly when a joiner is found and as Whisper otherwise, and
fails with the error naming both accepted naming schemes when encoder or
decoder is missing. -/
theorem c4_model_resolution (d : DirModel) :
    (d.hasFile "tokens.txt" = false → resolveSherpa d = .error "Missing tokens.txt") ∧
    (d.hasFile "tokens.txt" = true → d.hasFile "model.int8.onnx" = true →
      resolvedType (resolveSherpa d) = some .SenseVoice) ∧
    (d.hasFile "tokens.txt" = true → d.hasFile "model.int8.onnx" = false →
      (d.hasFile "encoder.int8.onnx" || d.hasFile "encoder.onnx") = true →
      (d.hasFile "decoder.int8.onnx" || d.hasFile "decoder.onnx") = true →
      (d.hasFile "joiner.int8.onnx" || d.hasFile "joiner.onnx") = true →
      resolvedType (resolveSherpa d) = some .Transducer) ∧
    (d.hasFile "tokens.txt" = true → d.hasFile "model.int8.onnx" = false →
      (d.hasFile "encoder.int8.onnx" || d.hasFile "encoder.onnx") = true →
      (d.hasFile "decoder.int8.onnx" || d.hasFile "decoder.onnx") = true →
      (d.hasFile "joiner.int8.onnx" || d.hasFile "joiner.onnx") = false →
      resolvedType (resolveSherpa d) = some .Whisper) ∧
    (d.hasFile "tokens.txt" = true → d.hasFile "model.int8.onnx" = false →
      ((d.hasFile "encoder.int8.onnx" || d.hasFile "encoder.onnx") &&
       (d.hasFile "decoder.int8.onnx" || d.hasFile "decoder.onnx")) = false →
      resolveSherpa d =
        .error "Missing model files: need either 'model.int8.onnx' (SenseVoice) or 'encoder/decoder' (Transducer/Whisper)") := by
  refine ⟨?_, ?_, ?_, ?_, ?_⟩
  · intro htok
    simp [resolveSherpa, htok]
  · intro htok hsv
    simp [resolveSherpa, resolvedType, htok, hsv]
  · intro htok hsv henc hdec hjoin
    rcases Bool.or_eq_true_iff.mp hjoin with hj | hj
    · cases hei : d.hasFile "encoder.int8.onnx" <;>
      cases hdi : d.hasFile "decoder.int8.onnx" <;>
      simp_all [resolveSherpa, resolvedType]
    · cases hei : d.hasFile "encoder.int8.onnx" <;>
      cases hdi : d.hasFile "decoder.int8.onnx" <;>
      cases hji : d.hasFile "joiner.int8.onnx" <;>
      simp_all [resolveSherpa, resolvedType]
  · intro htok hsv henc hdec hjoin
    rw [Bool.or_eq_false_iff] at hjoin
    cases hei : d.hasFile "encoder.int8.onnx" <;>
    cases hdi : d.hasFile "decoder.int8.onnx" <;>
    simp_all [resolveSherpa, resolvedType]
  · intro htok hsv hmiss
    rw [Bool.and_eq_false_iff] at hmiss
    rcases hmiss with h | h <;>
    rw [Bool.or_eq_false_iff] at h <;>
    cases hei : d.hasFile "encoder.int8.onnx" <;>
    cases hdi : d.hasFile "decoder.int8.onnx" <;>
    simp_all [resolveSherpa]

/-- Claim C4, witness: a directory holding tokens.txt, encoder, decoder
and joiner resolves to a Transducer. -/
theorem c4_model_resolution_witness :
    resolvedType (resolveSherpa ⟨"/m/t", "t",
      ["tokens.txt", "encoder.onnx", "decoder.onnx", "joiner.onnx"]⟩) =
      some .Transducer :=
  (c4_model_resolution ⟨"/m/t", "t",
    ["tokens.txt", "encoder.onnx", "decoder.onnx", "joiner.onnx"]⟩).2.2.1
    (by decide) (by decide) (by decide) (by decide) (by decide)

theorem resolveSherpa_ok_shape (d : DirModel) (cfg : SherpaConfig)
    (h : resolveSherpa d = .ok cfg) :
    (cfg.model_type = .SenseVoice ∧ ∃ m, cfg.sense_voice_model = some m) ∨
    ((∃ e, cfg.encoder = some e) ∧ (∃ de, cfg.decoder = some de) ∧
      ((cfg.model_type = .Transducer ∧ ∃ j, cfg.joiner = some j) ∨
       (cfg.model_type = .Whisper ∧ cfg.joiner = none))) := by
  cases htok : d.hasFile "tokens.txt" <;>
  cases hsv : d.hasFile "model.int8.onnx" <;>
  cases hei : d.hasFile "encoder.int8.onnx" <;>
  cases hes : d.hasFile "encoder.onnx" <;>
  cases hdi : d.hasFile "decoder.int8.onnx" <;>
  cases hds : d.hasFile "decoder.onnx" <;>
  cases hji : d.hasFile "joiner.int8.onnx" <;>
  cases hjs : d.hasFile "joiner.onnx" <;>
  simp [resolveSherpa, htok, hsv, hei, hes, hdi, hds, hji, hjs] at h <;>
  (subst h; simp)

/-- Claim C10: every configuration stored by a successful directory load
satisfies the field-presence invariant of its model type, and the sidecar
argument builder therefore emits the kind-specific model-path arguments
for it. -/
theorem c10_load_config_invariant (d : DirModel) (cfg : SherpaConfig)
    (h : resolveSherpa d = .ok cfg) (hw : Bool) (hwp wav : String) :
    configInv cfg = true ∧
    (cfg.model_type = .SenseVoice →
      ("--sense-voice-model=" ++ cfg.sense_voice_model.getD "") ∈
        buildSherpaArgs cfg hw hwp wav) ∧
    (cfg.model_type = .Transducer →
      ("--encoder=" ++ cfg.encoder.getD "") ∈ buildSherpaArgs cfg hw hwp wav ∧
      ("--decoder=" ++ cfg.decoder.getD "") ∈ buildSherpaArgs cfg hw hwp wav ∧
      ("--joiner=" ++ cfg.joiner.getD "") ∈ buildSherpaArgs cfg hw hwp wav) ∧
    (cfg.model_type = .Whisper →
      ("--whisper-encoder=" ++ cfg.encoder.getD "") ∈ buildSherpaArgs cfg hw hwp wav ∧
      ("--whisper-decoder=" ++ cfg.decoder.getD "") ∈ buildSherpaArgs cfg hw hwp wav) := by
  rcases resolveSherpa_ok_shape d cfg h with ⟨hmt, m, hm⟩ |
    ⟨⟨e, he⟩, ⟨de, hde⟩, ⟨hmt, j, hj⟩ | ⟨hmt, hj⟩⟩
  · refine ⟨?_, ?_, ?_, ?_⟩
    · simp [configInv, hmt, hm]
    · intro _
      simp [buildSherpaArgs, hmt, hm]
    · intro hT
      rw [hmt] at hT
      simp at hT
    · intro hW
      rw [hmt] at hW
      simp at hW
  · refine ⟨?_, ?_, ?_, ?_⟩
    · simp [configInv, hmt, he, hde, hj]
    · intro hS
      rw [hmt] at hS
      simp at hS
    · intro _
      cases hw <;> simp [buildSherpaArgs, hmt, he, hde, hj]
    · intro hW
      rw [hmt] at hW
      simp at hW
  · refine ⟨?_, ?_, ?_, ?_⟩
    · simp [configInv, hmt, he, hde, hj]
    · intro hS
      rw [hmt] at hS
      simp at hS
    · intro hT
      rw [hmt] at hT
      simp at hT
    · intro _
      simp [buildSherpaArgs, hmt, he, hde, hj]

/-- Claim C10, witness: at a concrete Transducer directory, the stored
configuration satisfies the invariant and the argument list carries its
encoder path. -/
theorem c10_load_config_invariant_witness :
    configInv transducerCfgExample = true ∧
    ("--encoder=" ++ transducerCfgExample.encoder.getD "") ∈
      buildSherpaArgs transducerCfgExample false "hw" "w" :=
  ⟨(c10_load_config_invariant transducerDirExample transducerCfgExample
      rfl false "hw" "w").1,
   ((c10_load_config_invariant transducerDirExample transducerCfgExample
      rfl false "hw" "w").2.2.1 rfl).1⟩

set_option allowUnsafeReducibility true

section RatKernelEval

attribute [local semireducible] Rat.mul Rat.add Rat.sub Rat.inv

/-- Claim C7, counterexample: the finite sample 9999/10000 encodes to the
integer 32763 and decodes to 32763/32768, which differs from the original
by more than 1/32767, so the claimed tolerance fails even inside the unit
range (and out-of-range finite samples saturate, with arbitrarily large
error). -/
theorem c7_tolerance_counterexample :
    roundTrip (.fin (9999/10000)) = .fin (32763/32768) ∧
    (32763 : ℚ)/32768 - 9999/10000 < -(1/32767) := by
  exact ⟨by decide, by decide⟩

/-- Claim C7, amended: for every finite sample value v with -1 ≤ v ≤ 1,
the scratch-WAV round trip (scale by 32767, truncate to i16, divide by
2^15) returns the value truncQ(v * 32767) / 32768, which is within
±1/16384 of v; every non-finite sample, clamped to 0.0 by the sidecar
sanitisation, round-trips exactly as 0.0. -/
theorem c7_roundtrip_quantization (v : ℚ) (h1 : -1 ≤ v) (h2 : v ≤ 1) :
    roundTrip (.fin v) = .fin ((truncQ (v * 32767) : ℚ) / 32768) ∧
    -(1/16384) ≤ (truncQ (v * 32767) : ℚ) / 32768 - v ∧
    (truncQ (v * 32767) : ℚ) / 32768 - v ≤ 1/16384 ∧
    roundTrip (sanitizeSample .nan) = .fin 0 ∧
    roundTrip (sanitizeSample .inf) = .fin 0 ∧
    roundTrip (sanitizeSample .neginf) = .fin 0 := by
  have hub : truncQ (v * 32767) ≤ 32767 := by
    apply truncQ_le_of_le
    push_cast
    nlinarith
  have hlb : (-32767 : ℤ) ≤ truncQ (v * 32767) := by
    apply le_truncQ_of_le
    push_cast
    nlinarith
  have habs := abs_truncQ_sub_lt_one (v * 32767)
  rw [abs_lt] at habs
  obtain ⟨hl, hr⟩ := habs
  have hclamp : f32AsI16 (.fin v) = truncQ (v * 32767) := by
    simp only [f32AsI16]
    omega
  refine ⟨?_, ?_, ?_, by decide, by decide, by decide⟩
  · simp [roundTrip, hclamp, decodeI16]
  · linarith
  · linarith

/-- Claim C7, witness for the amended theorem at the sample 0. -/
theorem c7_roundtrip_quantization_witness :
    roundTrip (.fin 0) = .fin ((truncQ ((0 : ℚ) * 32767) : ℚ) / 32768) ∧
    -(1/16384) ≤ (truncQ ((0 : ℚ) * 32767) : ℚ) / 32768 - 0 ∧
    (truncQ ((0 : ℚ) * 32767) : ℚ) / 32768 - 0 ≤ 1/16384 ∧
    roundTrip (sanitizeSample .nan) = .fin 0 ∧
    roundTrip (sanitizeSample .inf) = .fin 0 ∧
    roundTrip (sanitizeSample .neginf) = .fin 0 :=
  c7_roundtrip_quantization 0 (by decide) (by decide)

end RatKernelEval

end EliteWhisper
